import Mathlib

/-!
Shallow embedding of the BitString class from src/individ.py: a Python
dataclass with fields size (int), bits (list of ints) and count (int),
whose post-init hook re-initialises bits and count from size, plus the
dataclass's operators, shift methods, count setter and its XML
serialisation pair to_xml / from_xml.
-/

namespace Individ

/-- Error outcomes of the Python methods.  Each constructor corresponds to
one raise site (or exception kind) in src/individ.py; the names follow the
specification's error vocabulary where the mapping is clear. -/
inductive Err where
  /-- ValueError from the size bound check in post-init. -/
  | invalidCapacity
  /-- ValueError from the literal-string checks in post-init (overlong
  literal or a character other than 0 or 1). -/
  | invalidLiteral
  /-- ValueError from the count bound check in set_count. -/
  | invalidLength
  /-- ValueError from the equal-count check of the binary operators, and
  from the bits-length check in from_xml. -/
  | lengthMismatch
  /-- ValueError from the negative-shift check in shift_left / shift_right. -/
  | invalidShift
  /-- ValueError raised by int(c) on a character that is not a decimal
  digit, while from_xml converts the bits text. -/
  | invalidDigit
  /-- ValueError raised by int(s) on a field text that is not a decimal
  numeral. -/
  | intParse
  /-- TypeError raised when from_xml iterates a missing (None) bits text. -/
  | typeError
  deriving DecidableEq, Repr

/-- The state of a BitString object: fields size, bits, count of the
dataclass, with Python ints as Int. -/
structure BitString where
  size : Int
  bits : List Int
  count : Int
  deriving DecidableEq, Repr

/-- MAX_SIZE, the class constant. -/
def MAX_SIZE : Int := 100

/-- Normalised index of a Python slice bound: negative bounds count from
the end, bounds are clamped to the interval from 0 to the list length. -/
def pyIdx (len : Nat) (i : Int) : Nat :=
  if i < 0 then ((len : Int) + i).toNat else min i.toNat len

/-- Python slice l[a:b] with step 1. -/
def pySlice (l : List α) (a b : Int) : List α :=
  (l.take (pyIdx l.length b)).drop (pyIdx l.length a)

/-- Python slice assignment l[a:b] = repl: the slice is replaced by repl
(the list length may change). -/
def pySliceAssign (l : List α) (a b : Int) (repl : List α) : List α :=
  (l.take (pyIdx l.length a)) ++ repl ++ (l.drop (max (pyIdx l.length a) (pyIdx l.length b)))

/-- The post-init hook of the dataclass on the integer-size path, which is
also the behaviour of the whole constructor call BitString(size, bits,
count) with an int size: when size > 0 the given bits and count are
overwritten with size zeros and size; when size ≤ 0 the given fields are
kept unchanged (no branch of the hook applies). -/
def postInitInt (size : Int) (bits : List Int) (count : Int) : Except Err BitString :=
  if 0 < size then
    if MAX_SIZE < size then .error .invalidCapacity
    else .ok ⟨size, List.replicate size.toNat 0, size⟩
  else .ok ⟨size, bits, count⟩

/-- BitString(n): construction from an explicit capacity; the dataclass
defaults supply bits = [] and count = 0 before the post-init hook runs. -/
def from_capacity (n : Int) : Except Err BitString :=
  postInitInt n [] 0

/-- int(c) for a character of a checked literal: the code value of a
decimal digit character. -/
def charToInt (c : Char) : Int := (c.toNat : Int) - 48

/-- BitString(s) for a string s: the string path of the post-init hook
(overlong literals and non-binary characters raise ValueError; note that
no branch rejects the empty string). -/
def mkFromStr (s : String) : Except Err BitString :=
  if MAX_SIZE < (s.length : Int) then .error .invalidLiteral
  else if s.data.all (fun c => c == '0' || c == '1') then
    .ok ⟨(s.length : Int), s.data.map charToInt, (s.length : Int)⟩
  else .error .invalidLiteral

/-- str(b): the join of the decimal renderings of bits[:count]. -/
def render (b : BitString) : String :=
  String.join ((pySlice b.bits 0 b.count).map (fun i => toString i))

/-- The AND operator: equal counts are required, then
BitString(count, zipped ands, count) is constructed. -/
def band (a b : BitString) : Except Err BitString :=
  if a.count ≠ b.count then .error .lengthMismatch
  else postInitInt a.count (List.zipWith Int.land a.bits b.bits) a.count

/-- The OR operator. -/
def bor (a b : BitString) : Except Err BitString :=
  if a.count ≠ b.count then .error .lengthMismatch
  else postInitInt a.count (List.zipWith Int.lor a.bits b.bits) a.count

/-- The XOR operator. -/
def bxor (a b : BitString) : Except Err BitString :=
  if a.count ≠ b.count then .error .lengthMismatch
  else postInitInt a.count (List.zipWith Int.xor a.bits b.bits) a.count

/-- The NOT operator: BitString(size, complemented visible bits, count). -/
def invert (b : BitString) : Except Err BitString :=
  postInitInt b.size ((pySlice b.bits 0 b.count).map (fun x => 1 - x)) b.count

/-- shift_left(n). -/
def shift_left (b : BitString) (n : Int) : Except Err BitString :=
  if n < 0 then .error .invalidShift
  else if b.count ≤ n then postInitInt b.size (List.replicate b.count.toNat 0) b.count
  else postInitInt b.size (pySlice b.bits n b.count ++ List.replicate n.toNat 0) b.count

/-- shift_right(n). -/
def shift_right (b : BitString) (n : Int) : Except Err BitString :=
  if n < 0 then .error .invalidShift
  else if b.count ≤ n then postInitInt b.size (List.replicate b.count.toNat 0) b.count
  else postInitInt b.size (List.replicate n.toNat 0 ++ pySlice b.bits 0 (b.count - n)) b.count

/-- set_count(new_count): bound check, zero-fill of the newly exposed
slice on growth, then the count field is updated. -/
def set_count (b : BitString) (new_count : Int) : Except Err BitString :=
  if new_count < 0 ∨ b.size < new_count then .error .invalidLength
  else if b.count < new_count then
    .ok ⟨b.size, pySliceAssign b.bits b.count new_count
          (List.replicate (new_count - b.count).toNat 0), new_count⟩
  else .ok ⟨b.size, b.bits, new_count⟩

/-- A serialised BitString document as it stands after ElementTree has
re-parsed the produced string: the three child fields size, count, bits in
order, each reduced to its text.  ElementTree writes an element whose text
is the empty string as a self-closing tag, and re-parsing that tag yields
text None; the bits text is therefore an Option, none standing for the
missing text of an empty bits element. -/
structure XmlDoc where
  sizeText : String
  countText : String
  bitsText : Option String
  deriving DecidableEq, Repr

/-- to_xml followed by ElementTree string parsing: size and count as their
decimal texts, bits as the rendered visible digits (a missing text when
that rendering is empty). -/
def to_xml (b : BitString) : XmlDoc :=
  ⟨toString b.size, toString b.count,
   if render b = "" then none else some (render b)⟩

/-- The value of a list of decimal digit characters. -/
def digitsVal (l : List Char) : Int :=
  l.foldl (fun acc c => 10 * acc + charToInt c) 0

/-- int(s) on a field text.  Modelled on plain signed decimal numerals,
which cover every string produced by str() of an int; the further forms
Python's int() accepts (surrounding whitespace, a leading plus, underscore
separators, non-ASCII digits) never arise in this development. -/
def pyIntOfString (s : String) : Except Err Int :=
  match s.data with
  | [] => .error .intParse
  | '-' :: rest =>
      if rest.isEmpty then .error .intParse
      else if rest.all Char.isDigit then .ok (-(digitsVal rest)) else .error .intParse
  | l => if l.all Char.isDigit then .ok (digitsVal l) else .error .intParse

/-- int(c) on one character of the bits text, modelled on the ASCII
range: an ASCII decimal digit parses to its value, any other ASCII
character raises ValueError.  Python's int() additionally accepts
non-ASCII Unicode decimal digits (for example the Arabic-Indic digits),
which this model sends to the error path instead; every theorem below
that reasons about this conversion on abstract input therefore restricts
its bits text to ASCII characters, where the model agrees with int(). -/
def pyIntOfChar (c : Char) : Except Err Int :=
  if c.isDigit then .ok (charToInt c) else .error .invalidDigit

/-- from_xml on a parsed document: int-parse size and count, iterate the
bits text through int (a missing bits text raises TypeError at the
iteration), check len(bits) == count then count ≤ size, and finally run
the constructor BitString(size, bits, count). -/
def from_xml (doc : XmlDoc) : Except Err BitString := do
  let size ← pyIntOfString doc.sizeText
  let count ← pyIntOfString doc.countText
  match doc.bitsText with
  | none => .error .typeError
  | some bs => do
    let bits ← bs.data.mapM pyIntOfChar
    if (bits.length : Int) ≠ count then .error .lengthMismatch
    else if size < count then .error .invalidCapacity
    else postInitInt size bits count

/-- The specification's instance invariant: capacity between 1 and
MAX_CAPACITY, physical digit count equal to the capacity, logical length
between 0 and the capacity, every digit 0 or 1. -/
def Valid (b : BitString) : Prop :=
  1 ≤ b.size ∧ b.size ≤ MAX_SIZE ∧ (b.bits.length : Int) = b.size ∧
  0 ≤ b.count ∧ b.count ≤ b.size ∧ ∀ x ∈ b.bits, x = 0 ∨ x = 1

instance (b : BitString) : Decidable (Valid b) := by
  unfold Valid; infer_instance

end Individ

deriving instance DecidableEq for Except

namespace Individ

/-! ### Helper lemmas -/

/-- int() parses back the str() rendering of every small natural number. -/
theorem pyIntOfString_toString_ball :
    ∀ k : Nat, k < 101 → pyIntOfString (toString ((k : Int))) = .ok ((k : Int)) := by
  decide

/-- int() parses back the str() rendering of every integer between 0 and
MAX_SIZE. -/
theorem pyIntOfString_toString_ok (n : Int) (h0 : 0 ≤ n) (h1 : n ≤ 100) :
    pyIntOfString (toString n) = .ok n := by
  have hk : ((n.toNat : Int)) = n := Int.toNat_of_nonneg h0
  rw [← hk]
  exact pyIntOfString_toString_ball n.toNat (by omega)

/-- Converting a character list through int fails with the digit error as
soon as one character is not a decimal digit. -/
theorem mapM_nondigit_err (l : List Char) (h : l.all Char.isDigit = false) :
    l.mapM pyIntOfChar = (.error .invalidDigit : Except Err (List Int)) := by
  induction l with
  | nil => simp at h
  | cons c rest ih =>
      rw [List.mapM_cons]
      by_cases hc : c.isDigit
      · have hrest : rest.all Char.isDigit = false := by
          simp [List.all_cons, hc] at h
          simp [h]
        rw [ih hrest]
        unfold pyIntOfChar
        rw [if_pos hc]
        rfl
      · unfold pyIntOfChar
        rw [if_neg hc]
        rfl

/-! ### The claims -/

/-- Claim C1.  The claim states that from_xml(to_xml(v)) reproduces v's
capacity, length and visible digits.  It fails on the code: the
constructor call at the end of from_xml re-initialises bits to zeros and
count to size, so the instance BitString("1") round-trips to an instance
whose visible digit is 0, not 1. -/
theorem C1_roundtrip_loses_digits :
    mkFromStr "1" = .ok ⟨1, [1], 1⟩ ∧
    from_xml (to_xml ⟨1, [1], 1⟩) = .ok ⟨1, [0], 1⟩ ∧
    render ⟨1, [0], 1⟩ ≠ render ⟨1, [1], 1⟩ := by
  decide

/-- Claim C2.  The three-argument construction BitString(s, b, c) with
positive int s ignores the supplied bits b and count c entirely: its
outcome is the same for any b and c, and whenever it yields an instance
(that is, when s ≤ MAX_SIZE) that instance has s zero digits and count s;
for larger s it fails, still independently of b and c. -/
theorem C2_result_constructor_ignores_arguments
    (s c c' : Int) (b b' : List Int) (h : 0 < s) :
    postInitInt s b c = postInitInt s b' c' ∧
    (s ≤ MAX_SIZE → postInitInt s b c = .ok ⟨s, List.replicate s.toNat 0, s⟩) ∧
    (MAX_SIZE < s → postInitInt s b c = .error .invalidCapacity) := by
  unfold postInitInt
  rw [if_pos h, if_pos h]
  by_cases hm : MAX_SIZE < s
  · rw [if_pos hm]
    exact ⟨rfl, fun hle => absurd hm (not_lt.mpr hle), fun _ => rfl⟩
  · rw [if_neg hm]
    exact ⟨rfl, fun _ => rfl, fun hgt => absurd hgt hm⟩

/-- Witness for C2 at s = 3, b = [1, 0, 1], c = 1, b' = [], c' = 7. -/
theorem C2_result_constructor_ignores_arguments_witness :
    postInitInt 3 [1, 0, 1] 1 = postInitInt 3 [] 7 ∧
    postInitInt 3 [1, 0, 1] 1 = .ok ⟨3, List.replicate (3 : Int).toNat 0, 3⟩ :=
  ⟨(C2_result_constructor_ignores_arguments 3 1 7 [1, 0, 1] [] (by decide)).1,
   (C2_result_constructor_ignores_arguments 3 1 7 [1, 0, 1] [] (by decide)).2.1 (by decide)⟩

/-- Claim C3.  The claim states that AND/OR/XOR of equal-length operands
yields the elementwise combination on the visible digits.  It fails on the
code: the result constructor re-zero-fills, so 1 AND 1 yields digit 0
(likewise 1 OR 0 and 1 XOR 0 yield 0 where the claim requires 1); only the
capacity and length parts of the claim hold. -/
theorem C3_ops_results_zeroed :
    band ⟨1, [1], 1⟩ ⟨1, [1], 1⟩ = .ok ⟨1, [0], 1⟩ ∧
    bor ⟨1, [1], 1⟩ ⟨1, [0], 1⟩ = .ok ⟨1, [0], 1⟩ ∧
    bxor ⟨1, [1], 1⟩ ⟨1, [0], 1⟩ = .ok ⟨1, [0], 1⟩ := by
  decide

/-- Claim C4.  The claim states that NOT complements the visible digits
and that NOT(NOT(v)) reproduces v.  It fails on the code: the result
constructor re-zero-fills, so NOT of the instance with digits 1,0 has
digits 0,0 (the claim requires 0,1), and the double complement also
returns 0,0 instead of 1,0. -/
theorem C4_invert_result_zeroed :
    invert ⟨2, [1, 0], 2⟩ = .ok ⟨2, [0, 0], 2⟩ ∧
    Except.bind (invert ⟨2, [1, 0], 2⟩) invert = .ok ⟨2, [0, 0], 2⟩ ∧
    render ⟨2, [0, 0], 2⟩ ≠ render ⟨2, [1, 0], 2⟩ := by
  decide

/-- Claim C5.  The claim states that shifting preserves capacity and
length, redistributes the visible digits, and that shifting by 0 is a
no-op.  It fails on the code: the result constructor re-zero-fills, so a
shift by 0 of the instance with digits 1,0 yields 0,0, and for an
instance with count 2 below size 3 the result count jumps to 3. -/
theorem C5_shift_results_zeroed :
    shift_left ⟨2, [1, 0], 2⟩ 0 = .ok ⟨2, [0, 0], 2⟩ ∧
    shift_right ⟨2, [1, 0], 2⟩ 0 = .ok ⟨2, [0, 0], 2⟩ ∧
    shift_left ⟨3, [1, 1, 0], 2⟩ 1 = .ok ⟨3, [0, 0, 0], 3⟩ := by
  decide

/-- Counterexample to claim C6 as stated: shrinking the two-digit instance
1,1 to count 1 and growing back to 2 yields visible digits 1,0 — the
retained second digit 1 is zero-filled by the growth and is not observable
again. -/
theorem C6_regrow_zero_fills_cex :
    set_count ⟨2, [1, 1], 2⟩ 1 = .ok ⟨2, [1, 1], 1⟩ ∧
    set_count ⟨2, [1, 1], 1⟩ 2 = .ok ⟨2, [1, 0], 2⟩ ∧
    render ⟨2, [1, 0], 2⟩ ≠ render ⟨2, [1, 1], 2⟩ := by
  decide

/-- Claim C6, amended.  Shrinking via set_count changes only the count
field, so the slots beyond the new length do retain their bit values; but
growing the length back zero-fills exactly the re-exposed range, so the
retained values never become observable again. -/
theorem C6_shrink_retains_grow_zero_fills (b : BitString) (n m : Int)
    (hv : Valid b) (h0 : 0 ≤ n) (hn : n ≤ b.count) (hnm : n < m) (hm : m ≤ b.size) :
    set_count b n = .ok ⟨b.size, b.bits, n⟩ ∧
    set_count ⟨b.size, b.bits, n⟩ m =
      .ok ⟨b.size, b.bits.take n.toNat ++ List.replicate (m - n).toNat 0 ++ b.bits.drop m.toNat, m⟩ := by
  obtain ⟨h1, h2, hlen, h3, h4, h5⟩ := hv
  constructor
  · unfold set_count
    rw [if_neg (by omega), if_neg (by omega)]
  · unfold set_count
    dsimp only
    rw [if_neg (by omega), if_pos (by omega)]
    unfold pySliceAssign pyIdx
    rw [if_neg (by omega), if_neg (by omega)]
    rw [Nat.min_eq_left (by omega), Nat.min_eq_left (by omega), Nat.max_eq_right (by omega)]

/-- Witness for the amended C6 at the instance 1,1 shrunk to 1 and grown
back to 2. -/
theorem C6_shrink_retains_grow_zero_fills_witness :
    set_count ⟨2, [1, 1], 2⟩ 1 = .ok ⟨2, [1, 1], 1⟩ ∧
    set_count ⟨2, [1, 1], 1⟩ 2 =
      .ok ⟨2, [1, 1].take (1 : Int).toNat ++ List.replicate ((2 : Int) - 1).toNat 0 ++
            [1, 1].drop (2 : Int).toNat, 2⟩ :=
  C6_shrink_retains_grow_zero_fills ⟨2, [1, 1], 2⟩ 1 2
    (by decide) (by decide) (by decide) (by decide) (by decide)

/-- Counterexample to claim C7 as stated: constructing from capacity 0
does not fail with the capacity error — it silently yields a degenerate
instance with size 0, no digits and count 0. -/
theorem C7_zero_capacity_accepted_cex :
    from_capacity 0 ≠ .error .invalidCapacity ∧ from_capacity 0 = .ok ⟨0, [], 0⟩ := by
  decide

/-- Claim C7, amended.  Construction from an explicit capacity n yields
count n and n zero digits for 1 ≤ n ≤ MAX_SIZE and fails with the
capacity error for n > MAX_SIZE; but for n ≤ 0 — including n = 0 — no
check fires and the constructor silently returns a degenerate instance
with size n, no digits and count 0. -/
theorem C7_capacity_characterisation (n : Int) :
    (1 ≤ n → n ≤ MAX_SIZE → from_capacity n = .ok ⟨n, List.replicate n.toNat 0, n⟩) ∧
    (MAX_SIZE < n → from_capacity n = .error .invalidCapacity) ∧
    (n ≤ 0 → from_capacity n = .ok ⟨n, [], 0⟩) := by
  have hMS : MAX_SIZE = (100 : Int) := rfl
  unfold from_capacity postInitInt
  rw [hMS]
  refine ⟨fun h1 h2 => ?_, fun h => ?_, fun h => ?_⟩
  · rw [if_pos (by omega), if_neg (by omega)]
  · rw [if_pos (by omega), if_pos h]
  · rw [if_neg (by omega)]

/-- Witness for the amended C7 at n = 5, n = 101 and n = 0. -/
theorem C7_capacity_characterisation_witness :
    from_capacity 5 = .ok ⟨5, List.replicate (5 : Int).toNat 0, 5⟩ ∧
    from_capacity 101 = .error .invalidCapacity ∧
    from_capacity 0 = .ok ⟨0, [], 0⟩ :=
  ⟨(C7_capacity_characterisation 5).1 (by decide) (by decide),
   (C7_capacity_characterisation 101).2.1 (by decide),
   (C7_capacity_characterisation 0).2.2 (by decide)⟩

/-- Counterexample to claim C8 as stated: the empty literal is not
rejected — it silently yields a degenerate instance with size 0, no
digits and count 0. -/
theorem C8_empty_literal_accepted_cex :
    mkFromStr "" ≠ .error .invalidLiteral ∧ mkFromStr "" = .ok ⟨0, [], 0⟩ := by
  decide

/-- Claim C8, amended.  Construction from a literal fails with the
literal error exactly when the literal is longer than MAX_SIZE or
contains a character other than 0 and 1; the empty string passes both
checks and yields a degenerate instance with capacity and length 0. -/
theorem C8_literal_characterisation (s : String) :
    (mkFromStr s = .error .invalidLiteral ↔
      MAX_SIZE < (s.length : Int) ∨ (s.data.all fun c => c == '0' || c == '1') = false) ∧
    (s.length = 0 → mkFromStr s = .ok ⟨0, [], 0⟩) := by
  constructor
  · unfold mkFromStr
    split_ifs with hlong hall
    · simp [hlong]
    · simp [hlong, hall]
    · simp [hlong, hall]
  · intro h
    have hd : s.data = [] := List.eq_nil_of_length_eq_zero (by
      have : s.data.length = s.length := rfl
      omega)
    unfold mkFromStr
    rw [if_neg (by rw [h]; decide), if_pos (by rw [hd]; rfl)]
    rw [h, hd]
    rfl

/-- Witness for the amended C8 at the empty literal. -/
theorem C8_literal_characterisation_witness :
    mkFromStr "" = .ok ⟨0, [], 0⟩ :=
  (C8_literal_characterisation "").2 rfl

/-- Counterexample to claim C9 as stated: a serialized document whose
bits field is the character 2 — outside the binary alphabet — does not
fail with the digit error; it deserializes without any error (and the
parsed digit is then discarded by the constructor). -/
theorem C9_digit_two_accepted_cex :
    from_xml ⟨"1", "1", some "2"⟩ ≠ .error .invalidDigit ∧
    from_xml ⟨"1", "1", some "2"⟩ = .ok ⟨1, [0], 1⟩ := by
  decide

/-- Claim C9, amended.  Digit parsing in from_xml rejects only characters
without a decimal digit value, not everything outside 0 and 1: for a
document whose bits field is ASCII (the range on which the model of
int(c) is faithful — Python's int() also accepts non-ASCII Unicode
decimal digits, outside this theorem), whenever the size and count fields
parse and some character of the bits field is a non-digit,
deserialization fails with the digit-parse error; decimal digits such as
2 are accepted. -/
theorem C9_nondigit_bits_fail (st ct bs : String) (sz cn : Int)
    (hs : pyIntOfString st = .ok sz) (hc : pyIntOfString ct = .ok cn)
    (_ha : ∀ c ∈ bs.data, c.toNat < 128)
    (hb : bs.data.all Char.isDigit = false) :
    from_xml ⟨st, ct, some bs⟩ = .error .invalidDigit := by
  unfold from_xml
  rw [hs]
  show Except.bind (pyIntOfString ct) _ = _
  rw [hc]
  show Except.bind (bs.data.mapM pyIntOfChar) _ = _
  rw [mapM_nondigit_err bs.data hb]
  rfl

/-- Witness for the amended C9 at a document whose bits field is the
letter a. -/
theorem C9_nondigit_bits_fail_witness :
    from_xml ⟨"1", "1", some "a"⟩ = .error .invalidDigit :=
  C9_nondigit_bits_fail "1" "1" "a" 1 1 (by decide) (by decide) (by decide) (by decide)

/-- Claim C10.  For every instance with a valid capacity and length 0,
deserializing its serialization fails with the type error — an error
outside the specified error kinds: the empty bits rendering serializes as
an element with no text, which deserialization reads back as a missing
value and crashes on while iterating it. -/
theorem C10_zero_count_roundtrip_type_error (b : BitString)
    (h1 : 1 ≤ b.size) (h2 : b.size ≤ MAX_SIZE) (h0 : b.count = 0) :
    from_xml (to_xml b) = .error .typeError := by
  have hrender : render b = "" := by
    unfold render pySlice pyIdx
    rw [h0]
    simp
    rfl
  unfold to_xml
  rw [hrender, if_pos rfl, h0]
  unfold from_xml
  rw [pyIntOfString_toString_ok b.size (by omega)
        (by have hMS : MAX_SIZE = (100 : Int) := rfl; omega)]
  rfl

/-- Witness for C10 at the zero-filled instance of size 3 with count 0. -/
theorem C10_zero_count_roundtrip_type_error_witness :
    from_xml (to_xml ⟨3, [0, 0, 0], 0⟩) = .error .typeError :=
  C10_zero_count_roundtrip_type_error ⟨3, [0, 0, 0], 0⟩ (by decide) (by decide) rfl

end Individ
